import Mathlib

/-
Verification of the order / fulfillment logic of a dropshipping e-commerce
backend (FastAPI + SQLAlchemy).  The relevant Python modules are shallowly
embedded: SQLAlchemy rows become Lean structures, the per-request database
session becomes an explicit `DB` value threaded through each operation, and
HTTP endpoints become functions returning a `Resp` (success payload or an
HTTP error status + detail).  Python `int` is modelled by `Int`, Python
`float` arithmetic is modelled exactly over `ℚ`, and Python truthiness on
optional strings / ints is modelled explicitly.  Wall-clock timestamps are
passed in as explicit parameters.
-/

set_option maxRecDepth 4000

/-! ## Python-semantics helpers -/

/-- Truthiness of an optional string (`None` and `""` are falsy). -/
def pyTruthyStr : Option String → Bool
  | none => false
  | some s => !s.isEmpty

/-- Python `a or b` for an optional string `a` (falsy means `None` or `""`). -/
def pyOrStr (a : Option String) (b : String) : String :=
  match a with
  | some s => if s.isEmpty then b else s
  | none => b

/-- Python `a or b` for an optional int `a` (falsy means `None` or `0`). -/
def pyOrInt (a : Option Int) (b : Int) : Int :=
  match a with
  | some n => if n = 0 then b else n
  | none => b

/-- Whether `pat` is an initial segment of `l`. -/
def listStartsWith : List Char → List Char → Bool
  | [], _ => true
  | _ :: _, [] => false
  | p :: ps, c :: cs => p == c && listStartsWith ps cs

/-- Left-to-right, non-overlapping split on a nonempty separator, with
explicit fuel so that it evaluates by kernel reduction. -/
def splitSubAux (sep : List Char) : Nat → List Char → List Char → List (List Char)
  | _, [], acc => [acc.reverse]
  | 0, rest, acc => [acc.reverse ++ rest]
  | fuel + 1, c :: rest, acc =>
    if listStartsWith sep (c :: rest) then
      acc.reverse :: splitSubAux sep fuel (List.drop (sep.length - 1) rest) []
    else
      splitSubAux sep fuel rest (c :: acc)

/-- Python `s.split(sep)` for a nonempty separator. -/
def pySplit (s sep : String) : List String :=
  (splitSubAux sep.data (s.data.length + 1) s.data []).map String.mk

/-- Python `sub in s` (substring containment). -/
def pyContains (s sub : String) : Bool :=
  (pySplit s sub).length > 1

/-- Python `s.replace(pat, repl)` for a nonempty pattern. -/
def pyReplace (s pat repl : String) : String :=
  String.mk (List.intercalate repl.data (splitSubAux pat.data (s.data.length + 1) s.data []))

/-- Python `s.lower()` (ASCII case mapping suffices here). -/
def pyToLower (s : String) : String :=
  String.mk (s.data.map Char.toLower)

/-- Python `s.strip()`. -/
def pyStrip (s : String) : String :=
  String.mk (((s.data.dropWhile Char.isWhitespace).reverse.dropWhile Char.isWhitespace).reverse)

/-- Format a cent amount the way `f"{cents/100:.2f}"` prints it (nonnegative part). -/
def formatCentsNat (n : Nat) : String :=
  toString (n / 100) ++ "." ++ (if n % 100 < 10 then "0" else "") ++ toString (n % 100)

/-- Format a cent amount the way `f"{cents/100:.2f}"` prints it. -/
def formatCents (c : Int) : String :=
  if c < 0 then "-" ++ formatCentsNat (-c).toNat else formatCentsNat c.toNat

/-! ## Data model (models.py) -/

/-- A row of the `products` table (the columns used by the embedded code). -/
structure Product where
  id : Nat
  slug : String
  name : String
  description : Option String
  priceCents : Int
  trendScore : ℚ
  urgencyScore : ℚ
  status : String
  supplierUrl : Option String
  supplierName : Option String
  supplierCostCents : Option Int
deriving DecidableEq

/-- A row of the `orders` table (the columns used by the embedded code). -/
structure Order where
  id : Nat
  productId : Option Nat
  amountCents : Int
  status : String
  supplierOrderId : Option String
  trackingNumber : Option String
  trackingUrl : Option String
  shippedAt : Option Nat
deriving DecidableEq

/-- A row of the `trend_suggestions` table (the columns used by the embedded code). -/
structure TrendSuggestion where
  id : Nat
  hashtag : String
  trendScore : ℚ
  urgencyScore : ℚ
  suggestedName : Option String
  suggestedDescription : Option String
  suggestedPriceCents : Option Int
  status : String
  reviewedAt : Option Nat
  productId : Option Nat
deriving DecidableEq

/-- The relational state touched by the embedded operations. -/
structure DB where
  products : List Product
  orders : List Order
  suggestions : List TrendSuggestion
deriving DecidableEq

/-- `db.query(Order).filter(Order.id == order_id).first()`. -/
def findOrder (db : DB) (orderId : Nat) : Option Order :=
  db.orders.find? (fun o => o.id == orderId)

/-- `db.query(Product).filter(Product.id == product_id).first()`. -/
def findProduct (db : DB) (productId : Nat) : Option Product :=
  db.products.find? (fun p => p.id == productId)

/-- `db.query(TrendSuggestion).filter(TrendSuggestion.id == sid).first()`. -/
def findSuggestion (db : DB) (sid : Nat) : Option TrendSuggestion :=
  db.suggestions.find? (fun s => s.id == sid)

/-- `db.query(Product).filter(Product.slug == slug).first()`. -/
def findProductBySlug (db : DB) (slug : String) : Option Product :=
  db.products.find? (fun p => p.slug == slug)

/-- ORM mutation of the order row with the given primary key (ids are unique). -/
def updateOrderIn (db : DB) (orderId : Nat) (f : Order → Order) : DB :=
  { db with orders := db.orders.map (fun o => if o.id == orderId then f o else o) }

/-- ORM mutation of the suggestion row with the given primary key. -/
def updateSuggestionIn (db : DB) (sid : Nat) (f : TrendSuggestion → TrendSuggestion) : DB :=
  { db with suggestions := db.suggestions.map (fun s => if s.id == sid then f s else s) }

/-- Primary-key assignment performed by `db.flush()` on a newly added product. -/
def freshProductId (db : DB) : Nat :=
  (db.products.map (fun p => p.id)).foldr Nat.max 0 + 1

/-! ## Auto-fulfillment service (services/auto_fulfillment_service.py) -/

/-- The mutable configuration set in `AutoFulfillmentService.__init__`. -/
structure AutoFulfillmentService where
  maxAutoOrderValue : Int
  autoFulfillEnabled : Bool
deriving DecidableEq

/-- `AutoFulfillmentService.__init__`: cap 10000 cents, auto-fulfill enabled. -/
def mkAutoFulfillmentService : AutoFulfillmentService :=
  { maxAutoOrderValue := 10000, autoFulfillEnabled := true }

/-- The dict returned by `check_auto_fulfill_eligibility` (the extra keys are
present only when the order row exists). -/
structure EligibilityResult where
  eligible : Bool
  reasons : List String
  orderValue : Option Int
  productId : Option (Option Nat)
deriving DecidableEq

/-- `order.product`: the ORM relationship through `product_id`. -/
def orderProduct (db : DB) (o : Order) : Option Product :=
  match o.productId with
  | none => none
  | some pid => findProduct db pid

/-- `AutoFulfillmentService.check_auto_fulfill_eligibility` (lines 55-92). -/
def checkAutoFulfillEligibility (svc : AutoFulfillmentService) (db : DB)
    (orderId : Nat) : EligibilityResult :=
  match findOrder db orderId with
  | none => { eligible := false, reasons := ["Order not found"],
              orderValue := none, productId := none }
  | some order =>
    let statusReasons : List String :=
      if order.status = "pending" then []
      else ["Order status is \x27" ++ order.status ++ "\x27, must be \x27pending\x27"]
    let valueReasons : List String :=
      if order.amountCents > svc.maxAutoOrderValue then
        ["Order value $" ++ formatCents order.amountCents ++
          " exceeds auto-fulfill limit $" ++ formatCents svc.maxAutoOrderValue]
      else []
    let productReasons : List String :=
      match orderProduct db order with
      | some p =>
        if pyTruthyStr p.supplierUrl then [] else ["Product does not have supplier information"]
      | none => ["Order has no associated product"]
    let enabledReasons : List String :=
      if svc.autoFulfillEnabled then [] else ["Auto-fulfillment is disabled"]
    let reasons := statusReasons ++ valueReasons ++ productReasons ++ enabledReasons
    { eligible := reasons.isEmpty, reasons := reasons,
      orderValue := some order.amountCents, productId := some order.productId }

/-- The `FulfillmentResult` object of the service module. -/
structure FulfillmentResult where
  success : Bool
  orderId : Nat
  message : String
  supplierOrderId : Option String
deriving DecidableEq

/-- `AutoFulfillmentService.auto_order_from_supplier` (lines 94-156).
`now` is the `datetime.now().strftime("%Y%m%d%H%M%S")` timestamp string.
The `try` body can only fail when `order.product` is `None` (an
`AttributeError`, caught by the blanket `except Exception`), which the
preceding eligibility check rules out. -/
def autoOrderFromSupplier (svc : AutoFulfillmentService) (db : DB) (now : String)
    (orderId : Nat) : FulfillmentResult × DB :=
  match findOrder db orderId with
  | none =>
    ({ success := false, orderId := orderId, message := "Order not found",
       supplierOrderId := none }, db)
  | some order =>
    let eligibility := checkAutoFulfillEligibility svc db orderId
    if !eligibility.eligible then
      ({ success := false, orderId := orderId,
         message := "Not eligible: " ++ String.intercalate ", " eligibility.reasons,
         supplierOrderId := none }, db)
    else
      match orderProduct db order with
      | none =>
        ({ success := false, orderId := orderId,
           message := "Fulfillment error: \x27NoneType\x27 object has no attribute \x27supplier_url\x27",
           supplierOrderId := none }, db)
      | some product =>
        let supplierName := pyOrStr product.supplierName "Unknown Supplier"
        let supplierOrderId := "SUP-" ++ toString orderId ++ "-" ++ now
        let db' := updateOrderIn db orderId (fun o =>
          { o with supplierOrderId := some supplierOrderId, status := "processing" })
        ({ success := true, orderId := orderId,
           message := "Order placed with " ++ supplierName,
           supplierOrderId := some supplierOrderId }, db')

/-- `AutoFulfillmentService.update_tracking` (lines 211-226); `now` is the
`datetime.utcnow()` timestamp. -/
def serviceUpdateTracking (db : DB) (now : Nat) (orderId : Nat)
    (trackingNumber : String) (trackingUrl : Option String) : Bool × DB :=
  match findOrder db orderId with
  | none => (false, db)
  | some _ =>
    (true, updateOrderIn db orderId (fun o =>
      { o with trackingNumber := some trackingNumber,
               trackingUrl := if pyTruthyStr trackingUrl then trackingUrl else o.trackingUrl,
               status := "shipped",
               shippedAt := some now }))

/-- `crud.update_order_tracking`: sets tracking fields and forces status `shipped`. -/
def crudUpdateOrderTracking (db : DB) (now : Nat) (orderId : Nat)
    (trackingNumber : String) (trackingUrl : Option String) : Option DB :=
  match findOrder db orderId with
  | none => none
  | some _ =>
    some (updateOrderIn db orderId (fun o =>
      { o with trackingNumber := some trackingNumber,
               trackingUrl := trackingUrl,
               shippedAt := some now,
               status := "shipped" }))

/-! ## Schema validation (schemas.py) -/

/-- Whether a character is in the class `[a-z0-9]`. -/
def slugChar (c : Char) : Bool :=
  (Char.isLower c && Char.isAlpha c) || Char.isDigit c

/-- Whether the whole string consists of one or more nonempty `[a-z0-9]`
groups separated by single hyphens: the core pattern
`[a-z0-9]+(?:-[a-z0-9]+)*` consuming the entire string. -/
def slugCore (s : String) : Bool :=
  (pySplit s "-").all (fun g => !g.isEmpty && g.data.all slugChar)

/-- Python `re.match(r"^[a-z0-9]+(?:-[a-z0-9]+)*$", s)`: without re.MULTILINE
the `$` anchor matches at the end of the string or just before one final
newline, so the match succeeds on the core pattern exactly, or on the core
pattern followed by a single trailing `\n`. -/
def slugMatches (s : String) : Bool :=
  slugCore s ||
    (match s.data.getLast? with
     | some c => c == '\n' && slugCore (String.mk s.data.dropLast)
     | none => false)

/-- `schemas.validate_slug` (lines 15-23): regex, then length in [3, 100]. -/
def validateSlug (value : String) : Except String String :=
  if !slugMatches value then
    Except.error "Slug must be lowercase alphanumeric with hyphens only"
  else if value.length < 3 then
    Except.error "Slug must be at least 3 characters"
  else if value.length > 100 then
    Except.error "Slug must be at most 100 characters"
  else
    Except.ok value

/-- The allow-list of `OrderStatusUpdate.validate_status` (schemas.py lines 334). -/
def schemaOrderStatuses : List String :=
  ["pending", "paid", "processing", "shipped", "delivered", "cancelled", "refunded"]

/-- `OrderStatusUpdate.validate_status` (schemas.py lines 331-337): lowercases
and checks membership in the 7-element schema allow-list. -/
def validateOrderStatusUpdate (v : String) : Except String String :=
  if schemaOrderStatuses.contains (pyToLower v) then
    Except.ok (pyToLower v)
  else
    Except.error ("Status must be one of: [\x27pending\x27, \x27paid\x27, \x27processing\x27, " ++ "\x27shipped\x27, \x27delivered\x27, \x27cancelled\x27, \x27refunded\x27]")

/-- `OrderTrackingUpdate.validate_tracking_number` (schemas.py lines 344-351). -/
def validateTrackingNumber (v : String) : Except String String :=
  if (pyStrip v).length < 5 then
    Except.error "Tracking number must be at least 5 characters"
  else if v.length > 100 then
    Except.error "Tracking number must be at most 100 characters"
  else
    Except.ok (pyStrip v)

/-! ## Admin endpoints (admin.py) -/

/-- An HTTP handler outcome: success payload, or an `HTTPException`-style
status code and detail (422 for pydantic request-validation failures). -/
inductive Resp (α : Type)
  | ok (a : α)
  | err (status : Nat) (detail : String)
deriving DecidableEq

/-- The handler-local allow-list of `update_order_status` (admin.py line 270). -/
def adminOrderStatuses : List String :=
  ["pending", "paid", "processing", "shipped", "delivered", "fulfilled",
   "cancelled", "refunded", "abandoned"]

/-- The `PATCH /orders/(order_id)/status` pipeline: pydantic validation of the
request body, then the `update_order_status` handler (admin.py lines 258-277). -/
def updateOrderStatusEndpoint (db : DB) (orderId : Nat) (rawStatus : String) :
    Resp (String × Nat) × DB :=
  match validateOrderStatusUpdate rawStatus with
  | Except.error msg => (Resp.err 422 msg, db)
  | Except.ok status =>
    match findOrder db orderId with
    | none => (Resp.err 404 "Order not found", db)
    | some _ =>
      if !adminOrderStatuses.contains status then
        (Resp.err 400 ("Invalid status. Must be one of: [\x27pending\x27, \x27paid\x27, \x27processing\x27, " ++ "\x27shipped\x27, \x27delivered\x27, \x27fulfilled\x27, \x27cancelled\x27, \x27refunded\x27, \x27abandoned\x27]"), db)
      else
        (Resp.ok (status, orderId), updateOrderIn db orderId (fun o => { o with status := status }))

/-- Response body of `POST /orders/(order_id)/tracking`. -/
structure TrackingResp where
  id : Nat
  trackingNumber : String
  trackingUrl : Option String
deriving DecidableEq

/-- The `add_order_tracking` handler (admin.py lines 280-304): sets the
tracking fields (the `hasattr` guards are always true on this model) and does
NOT touch the order status. -/
def addOrderTracking (db : DB) (orderId : Nat) (trackingNumber : String)
    (trackingUrl : Option String) : Resp TrackingResp × DB :=
  match findOrder db orderId with
  | none => (Resp.err 404 "Order not found", db)
  | some _ =>
    (Resp.ok { id := orderId, trackingNumber := trackingNumber, trackingUrl := trackingUrl },
     updateOrderIn db orderId (fun o =>
       { o with trackingNumber := some trackingNumber,
                trackingUrl := if pyTruthyStr trackingUrl then trackingUrl else o.trackingUrl }))

/-- The optional body of `POST /queue/(suggestion_id)/approve`. -/
structure ApproveRequest where
  priceCents : Option Int
  name : Option String
deriving DecidableEq

/-- `slug = suggestion.hashtag.lower().replace(" ", "-").replace("#", "")`. -/
def slugFromHashtag (hashtag : String) : String :=
  pyReplace (pyReplace (pyToLower hashtag) " " "-") "#" ""

/-- The `approve_suggestion` handler (admin.py lines 95-142); `now` is the
`datetime.utcnow()` timestamp, `request` the optional override body. -/
def approveSuggestion (db : DB) (now : Nat) (suggestionId : Nat)
    (request : Option ApproveRequest) : Resp Product × DB :=
  match findSuggestion db suggestionId with
  | none => (Resp.err 404 "Suggestion not found", db)
  | some suggestion =>
    if suggestion.status ≠ "pending" then
      (Resp.err 400 "Suggestion already processed", db)
    else
      let slug0 := slugFromHashtag suggestion.hashtag
      let name := pyOrStr (request.bind (fun r => r.name))
        (pyOrStr suggestion.suggestedName ("Trending: " ++ suggestion.hashtag))
      let price := pyOrInt (request.bind (fun r => r.priceCents))
        (pyOrInt suggestion.suggestedPriceCents 1999)
      let slug := match findProductBySlug db slug0 with
        | some _ => slug0 ++ "-" ++ toString suggestion.id
        | none => slug0
      let product : Product :=
        { id := freshProductId db,
          slug := slug,
          name := name,
          description := some (pyOrStr suggestion.suggestedDescription
            ("Viral product inspired by #" ++ suggestion.hashtag)),
          priceCents := price,
          trendScore := suggestion.trendScore,
          urgencyScore := suggestion.urgencyScore,
          status := "testing",
          supplierUrl := none, supplierName := none, supplierCostCents := none }
      let db' : DB := { db with products := db.products ++ [product] }
      let db'' := updateSuggestionIn db' suggestionId (fun s =>
        { s with status := "approved", reviewedAt := some now, productId := some product.id })
      (Resp.ok product, db'')

/-! ## Fulfillment rules engine (services/auto_fulfillment_service.py lines 243-334) -/

/-- An in-memory fulfillment rule dict. -/
structure Rule where
  id : String
  name : String
  condition : String
  action : String
  enabled : Bool
  priority : Int
deriving DecidableEq

/-- `FulfillmentRulesEngine._load_default_rules` (lines 250-277). -/
def defaultRules : List Rule :=
  [ { id := "auto_fulfill_low_value", name := "Auto-fulfill low value orders",
      condition := "order_value < 5000", action := "auto_fulfill",
      enabled := true, priority := 1 },
    { id := "hold_high_value", name := "Hold high value orders for review",
      condition := "order_value >= 10000", action := "hold_for_review",
      enabled := true, priority := 2 },
    { id := "hold_first_time", name := "Hold first-time customer orders",
      condition := "is_first_order", action := "hold_for_review",
      enabled := false, priority := 3 } ]

/-- One insertion step of a stable insertion sort on the priority key. -/
def insertByPriority : List Rule → Rule → List Rule
  | [], r => [r]
  | x :: xs, r =>
    if x.priority ≤ r.priority then x :: insertByPriority xs r else r :: x :: xs

/-- `sorted(self.rules, key=lambda r: r["priority"])`: an ascending stable
sort (equal priorities keep their list order). -/
def sortRulesByPriority (rules : List Rule) : List Rule :=
  rules.foldl insertByPriority []

/-- The body of the rule loop in `evaluate_order`: a disabled rule is skipped,
the two hardcoded condition strings are interpreted, anything else is ignored;
a match overwrites the recommended action and appends to the matched list. -/
def ruleStep (amount : Int) (acc : String × List Rule) (r : Rule) : String × List Rule :=
  if !r.enabled then acc
  else if r.condition = "order_value < 5000" then
    (if amount < 5000 then (r.action, acc.2 ++ [r]) else acc)
  else if r.condition = "order_value >= 10000" then
    (if amount ≥ 10000 then (r.action, acc.2 ++ [r]) else acc)
  else acc

/-- The dict returned by `FulfillmentRulesEngine.evaluate_order`. -/
inductive EvalOutcome
  | err (message : String)
  | ok (orderId : Nat) (orderValue : Int) (action : String) (matchedRules : List String)
deriving DecidableEq

/-- The recommended action carried by an `EvalOutcome`, when the order exists. -/
def EvalOutcome.action? : EvalOutcome → Option String
  | .err _ => none
  | .ok _ _ a _ => some a

/-- `FulfillmentRulesEngine.evaluate_order` (lines 279-314) for an engine
whose current rule list is `rules`. -/
def evaluateOrder (rules : List Rule) (db : DB) (orderId : Nat) : EvalOutcome :=
  match findOrder db orderId with
  | none => EvalOutcome.err "Order not found"
  | some order =>
    let result := (sortRulesByPriority rules).foldl (ruleStep order.amountCents) ("process", [])
    EvalOutcome.ok orderId order.amountCents result.1 (result.2.map (fun r => r.name))

/-! ## AI service (services/ai_service.py)

The Anthropic client and the `json` library are external; the client call is
modelled by an `ApiCallOutcome` parameter and `json.loads` by a
`String → Except Unit PyVal` oracle.  Everything the module itself does with
the reply (code-fence extraction, field access, `float(...)` conversion,
clamping, and the heuristic fallbacks) is embedded. -/

/-- Dynamically typed values as produced by `json.loads`. -/
inductive PyVal
  | pnull
  | pbool (b : Bool)
  | pint (n : Int)
  | pfloat (q : ℚ)
  | pstr (s : String)
  | pdict (kvs : List (String × PyVal))

/-- Uncaught Python exception kinds relevant to the embedded code. -/
inductive PyExc
  | valueError
  | typeError
  | attributeError
  | indexError
deriving DecidableEq

/-- Digits-only parse of a nonempty character list. -/
def parseNatDigits (cs : List Char) : Option Nat :=
  if cs.isEmpty then none
  else if cs.all Char.isDigit then
    some (cs.foldl (fun acc c => acc * 10 + (c.toNat - 48)) 0)
  else none

/-- The decimal-literal fragment of Python `float(str)`: optional sign,
digits with an optional fractional part.  Anything else fails (ValueError). -/
def pyFloatOfString (s : String) : Option ℚ :=
  let t := pyStrip s
  let neg := listStartsWith ['-'] t.data
  let body := if listStartsWith ['-'] t.data || listStartsWith ['+'] t.data then
    String.mk (t.data.drop 1) else t
  let mag : Option ℚ :=
    match pySplit body "." with
    | [a] => (parseNatDigits a.data).map (fun n => (n : ℚ))
    | [a, b] =>
      if a.data.isEmpty && b.data.isEmpty then none
      else
        let ip := if a.data.isEmpty then some 0 else parseNatDigits a.data
        let fp := if b.data.isEmpty then some (0, 0)
          else (parseNatDigits b.data).map (fun n => (n, b.data.length))
        match ip, fp with
        | some i, some (f, k) => some ((i : ℚ) + (f : ℚ) / ((10 : ℚ) ^ k))
        | _, _ => none
    | _ => none
  mag.map (fun m => if neg then -m else m)

/-- Python `float(x)` on a dynamically typed value: numbers and booleans
convert, numeric strings parse (ValueError otherwise), and `None` or
containers raise TypeError. -/
def pyFloat : PyVal → Except PyExc ℚ
  | .pint n => Except.ok (n : ℚ)
  | .pfloat q => Except.ok q
  | .pbool b => Except.ok (if b then 1 else 0)
  | .pstr s =>
    match pyFloatOfString s with
    | some q => Except.ok q
    | none => Except.error PyExc.valueError
  | _ => Except.error PyExc.typeError

/-- Python `dict.get(key, default)` (later duplicate keys shadow earlier ones). -/
def pyDictGet (kvs : List (String × PyVal)) (key : String) (dflt : PyVal) : PyVal :=
  match kvs.reverse.find? (fun kv => kv.1 == key) with
  | some kv => kv.2
  | none => dflt

/-- The code-fence extraction applied to the reply text before `json.loads`
(ai_service.py lines 104-110): the part after a ` ```json ` fence up to the
next fence, else the part after the first ` ``` ` fence up to the next fence,
else the whole text. -/
def extractJsonStr (text : String) : String :=
  if pyContains text "```json" then
    (pySplit ((pySplit text "```json").getD 1 "") "```").headD ""
  else if pyContains text "```" then
    (pySplit ((pySplit text "```").getD 1 "") "```").headD ""
  else text

/-- The dataclass `ScoringResult`; the dynamically typed fields coming from
`dict.get` are kept as `PyVal`. -/
structure ScoringResult where
  trendScore : ℚ
  urgencyScore : ℚ
  reasoning : PyVal
  suggestedName : PyVal
  suggestedDescription : PyVal

/-- `min(100, max(0, x))`. -/
def clamp0100 (q : ℚ) : ℚ := min 100 (max 0 q)

/-- Round half to even, as Python `round`. -/
def roundHalfEven (q : ℚ) : Int :=
  let f := Rat.floor q
  let r := q - (f : ℚ)
  if r < 1/2 then f
  else if 1/2 < r then f + 1
  else if f % 2 = 0 then f else f + 1

/-- Python `round(x, 1)` (modelled exactly over `ℚ`). -/
def pyRound1 (q : ℚ) : ℚ := ((roundHalfEven (q * 10)) : ℚ) / 10

/-- `AIService._heuristic_score` (lines 129-171); the float constant `0.2`
is modelled exactly as `1/5`. -/
def heuristicScore (views : Int) (growthRate : ℚ) (engagement : Int)
    (videoCount : Int) : ScoringResult :=
  let viewScore : ℚ := min 50 ((views : ℚ) / 10000000 * 50)
  let engagementScore : ℚ := min 30 ((engagement : ℚ) / 1000000 * 30)
  let velocityScore : ℚ := min 20 (growthRate * (1/5))
  let trendScore := viewScore + engagementScore + velocityScore
  let urgencyBase : Int := if growthRate > 70 then 80 else if growthRate > 40 then 60 else 40
  let urgencyModifier : Int :=
    if videoCount > 100000 then 10 else if videoCount > 10000 then 5 else -10
  let urgencyScore : ℚ := min 100 (max 0 ((urgencyBase + urgencyModifier : Int) : ℚ))
  { trendScore := pyRound1 trendScore,
    urgencyScore := pyRound1 urgencyScore,
    reasoning := PyVal.pstr "Scored using heuristic algorithm (AI unavailable)",
    suggestedName := PyVal.pnull,
    suggestedDescription := PyVal.pnull }

/-- The content-block texts of a successful `messages.create` reply. -/
structure ApiReply where
  content : List String

/-- Outcome of the `messages.create` call: an `anthropic.APIError`, or a reply. -/
inductive ApiCallOutcome
  | apiErr
  | reply (r : ApiReply)

/-- `AIService.score_trend` (lines 52-127).  With no client configured the
heuristic is returned directly.  Otherwise: an `anthropic.APIError` from the
call is caught (heuristic); `message.content[0]` on an empty content list
raises IndexError, which the outer `except anthropic.APIError` does not
catch; a `json.loads` failure is caught by the inner
`except (json.JSONDecodeError, IndexError)` (heuristic); `result.get` on a
non-dict raises AttributeError (uncaught); `float(...)` on a non-numeric
field raises ValueError/TypeError (uncaught). -/
def scoreTrend (clientConfigured : Bool) (loads : String → Except Unit PyVal)
    (call : ApiCallOutcome) (views : Int) (growthRate : ℚ) (engagement : Int)
    (videoCount : Int) : Except PyExc ScoringResult :=
  if !clientConfigured then
    Except.ok (heuristicScore views growthRate engagement videoCount)
  else
    match call with
    | ApiCallOutcome.apiErr =>
      Except.ok (heuristicScore views growthRate engagement videoCount)
    | ApiCallOutcome.reply r =>
      match r.content.head? with
      | none => Except.error PyExc.indexError
      | some responseText =>
        match loads (pyStrip (extractJsonStr responseText)) with
        | Except.error _ =>
          Except.ok (heuristicScore views growthRate engagement videoCount)
        | Except.ok result =>
          match result with
          | PyVal.pdict kvs =>
            (match pyFloat (pyDictGet kvs "trend_score" (PyVal.pint 50)) with
             | Except.error e => Except.error e
             | Except.ok t =>
               match pyFloat (pyDictGet kvs "urgency_score" (PyVal.pint 50)) with
               | Except.error e => Except.error e
               | Except.ok u =>
                 Except.ok { trendScore := clamp0100 t, urgencyScore := clamp0100 u,
                             reasoning := pyDictGet kvs "reasoning" (PyVal.pstr ""),
                             suggestedName := pyDictGet kvs "suggested_name" PyVal.pnull,
                             suggestedDescription := pyDictGet kvs "suggested_description" PyVal.pnull })
          | _ => Except.error PyExc.attributeError

/-- The dataclass `PricingRecommendation` (static fields only). -/
structure PricingRecommendation where
  suggestedPriceCents : Int
  minPriceCents : Int
  maxPriceCents : Int
  confidence : ℚ
  reasoning : String
deriving DecidableEq

/-- Python `int(x)` on a rational: truncation toward zero. -/
def pyTrunc (q : ℚ) : Int := if q < 0 then ⌈q⌉ else ⌊q⌋

/-- `AIService._heuristic_pricing` (lines 395-417); the float constants `1.3`
and `3.5` are modelled exactly as `13/10` and `7/2`; `//` is floor division. -/
def heuristicPricing (supplierCostCents : Int) (targetMargin : ℚ) : PricingRecommendation :=
  let basePrice : Int := pyTrunc ((supplierCostCents : ℚ) * (1 + targetMargin))
  let suggested : Int :=
    if basePrice < 1000 then (Int.fdiv basePrice 100) * 100 + 99
    else if basePrice < 5000 then (Int.fdiv basePrice 500) * 500 + 499
    else (Int.fdiv basePrice 1000) * 1000 + 999
  { suggestedPriceCents := suggested,
    minPriceCents := pyTrunc ((supplierCostCents : ℚ) * (13/10)),
    maxPriceCents := pyTrunc ((supplierCostCents : ℚ) * (7/2)),
    confidence := 6/10,
    reasoning := "Calculated using standard markup formula with psychological pricing adjustment" }

/-- `AIService.recommend_pricing` (lines 331-393): with no client configured
it returns the heuristic directly.  The configured-client path (external API
call and reply parsing) is abstracted as the `apiPath` parameter. -/
def recommendPricing (clientConfigured : Bool) (apiPath : PricingRecommendation)
    (supplierCostCents : Int) (targetMargin : ℚ) : PricingRecommendation :=
  if !clientConfigured then heuristicPricing supplierCostCents targetMargin
  else apiPath

/-! ## Concrete example states for the closed instances -/

/-- A product with full supplier information. -/
def exSupplierProduct : Product :=
  { id := 1, slug := "widget-pro", name := "Widget Pro", description := none,
    priceCents := 4999, trendScore := 80, urgencyScore := 70, status := "live",
    supplierUrl := some "https://supplier.example/widget",
    supplierName := some "Acme", supplierCostCents := some 899 }

/-- A pending order on `exSupplierProduct`, under the auto-fulfill cap. -/
def exPendingOrder : Order :=
  { id := 1, productId := some 1, amountCents := 4999, status := "pending",
    supplierOrderId := none, trackingNumber := none, trackingUrl := none,
    shippedAt := none }

/-- An already-paid order on `exSupplierProduct`. -/
def exPaidOrder : Order :=
  { id := 2, productId := some 1, amountCents := 4999, status := "paid",
    supplierOrderId := none, trackingNumber := none, trackingUrl := none,
    shippedAt := none }

/-- A small store state with one product and two orders. -/
def exDb : DB :=
  { products := [exSupplierProduct], orders := [exPendingOrder, exPaidOrder],
    suggestions := [] }

/-- A pending trend suggestion with a well-formed hashtag. -/
def exSuggestionLed : TrendSuggestion :=
  { id := 5, hashtag := "#LedLights", trendScore := 90, urgencyScore := 60,
    suggestedName := some "LED Strip Lights", suggestedDescription := none,
    suggestedPriceCents := some 2499, status := "pending", reviewedAt := none,
    productId := none }

/-- A pending trend suggestion whose hashtag yields a 2-character slug. -/
def exSuggestionAI : TrendSuggestion :=
  { id := 7, hashtag := "#AI", trendScore := 95, urgencyScore := 80,
    suggestedName := none, suggestedDescription := none,
    suggestedPriceCents := none, status := "pending", reviewedAt := none,
    productId := none }

/-- A suggestion that has already been approved. -/
def exSuggestionDone : TrendSuggestion :=
  { id := 9, hashtag := "#OldTrend", trendScore := 50, urgencyScore := 40,
    suggestedName := none, suggestedDescription := none,
    suggestedPriceCents := none, status := "approved", reviewedAt := some 1,
    productId := some 1 }

/-- A store state holding only trend suggestions. -/
def exSuggestionDb : DB :=
  { products := [], orders := [],
    suggestions := [exSuggestionLed, exSuggestionAI, exSuggestionDone] }

/-- The `json.loads` model used for the score_trend counterexample: the
literal reply text parses to a dict whose `trend_score` is the non-numeric
string `"hot"` (exactly what `json.loads` returns on that input). -/
def loadsHot : String → Except Unit PyVal := fun s =>
  if s = "\x7b\"trend_score\": \"hot\"\x7d" then
    Except.ok (PyVal.pdict [("trend_score", PyVal.pstr "hot")])
  else Except.error ()

/-- A `json.loads` model that always fails to decode. -/
def loadsFail : String → Except Unit PyVal := fun _ => Except.error ()

/-! ## Theorems -/

/-- C9: with no API client configured, `recommend_pricing` with
supplier_cost_cents = 899 and target_margin = 0.5 returns
suggested_price_cents = 1499: the base price int(899 × 1.5) = 1348 falls in
the below-5000 bracket and is rounded to (1348 // 500) × 500 + 499 = 1499,
a psychological price ending in 99 or 49. -/
theorem c9_recommendPricing_899 (apiPath : PricingRecommendation) :
    (recommendPricing false apiPath 899 (1/2)).suggestedPriceCents = 1499 ∧
    pyTrunc (((899 : Int) : ℚ) * (1 + 1/2)) = 1348 ∧
    ¬ ((1348 : Int) < 1000) ∧ (1348 : Int) < 5000 ∧
    Int.fdiv 1348 500 * 500 + 499 = (1499 : Int) ∧
    ((1499 : Int) % 100 = 99 ∨ (1499 : Int) % 100 = 49) := by
  have hb : pyTrunc (((899 : Int) : ℚ) * (1 + 1/2)) = 1348 := by
    simp only [pyTrunc]
    norm_num
  refine ⟨?_, hb, by decide, by decide, by decide, by decide⟩
  simp only [recommendPricing, heuristicPricing, hb]
  norm_num
  decide

/-- C10 counterexample: with a client configured, a successful API reply
whose JSON decodes to a dict with the non-numeric score string "hot" makes
`float(...)` raise an uncaught ValueError, so `score_trend` propagates an
exception instead of returning the heuristic fallback. -/
theorem c10_scoreTrend_counterexample :
    scoreTrend true loadsHot
      (ApiCallOutcome.reply { content := ["\x7b\"trend_score\": \"hot\"\x7d"] })
      1000000 50 100000 5000 = Except.error PyExc.valueError := by
  rfl

/-- C10 (amended): `score_trend` catches an `anthropic.APIError` from the
external call and any `json.loads` decode failure, returning the heuristic
fallback computed from views, growth_rate, engagement and video_count (and
returns the heuristic directly when no client is configured); exceptions
outside these cases (e.g. `float(...)` on a non-numeric score field)
propagate to the caller. -/
theorem c10_scoreTrend_amended (loads : String → Except Unit PyVal) (text : String)
    (views : Int) (growthRate : ℚ) (engagement : Int) (videoCount : Int)
    (hdecode : loads (pyStrip (extractJsonStr text)) = Except.error ()) :
    scoreTrend true loads ApiCallOutcome.apiErr views growthRate engagement videoCount
      = Except.ok (heuristicScore views growthRate engagement videoCount) ∧
    scoreTrend true loads (ApiCallOutcome.reply { content := [text] })
        views growthRate engagement videoCount
      = Except.ok (heuristicScore views growthRate engagement videoCount) ∧
    scoreTrend false loads (ApiCallOutcome.reply { content := [text] })
        views growthRate engagement videoCount
      = Except.ok (heuristicScore views growthRate engagement videoCount) := by
  refine ⟨rfl, ?_, rfl⟩
  simp only [scoreTrend, Bool.not_true, Bool.false_eq_true, if_false, List.head?, hdecode]

/-- Closed instance of `c10_scoreTrend_amended` at a decode-failing oracle. -/
theorem c10_scoreTrend_amended_witness :
    scoreTrend true loadsFail ApiCallOutcome.apiErr 0 0 0 0
      = Except.ok (heuristicScore 0 0 0 0) ∧
    scoreTrend true loadsFail (ApiCallOutcome.reply { content := ["nonsense"] }) 0 0 0 0
      = Except.ok (heuristicScore 0 0 0 0) ∧
    scoreTrend false loadsFail (ApiCallOutcome.reply { content := ["nonsense"] }) 0 0 0 0
      = Except.ok (heuristicScore 0 0 0 0) :=
  c10_scoreTrend_amended loadsFail "nonsense" 0 0 0 0 rfl

/-- Helper: characterization of the eligibility flag computed by
`check_auto_fulfill_eligibility` for the default service configuration. -/
theorem checkEligibility_eligible_iff (db : DB) (oid : Nat) (order : Order)
    (h : findOrder db oid = some order) :
    (checkAutoFulfillEligibility mkAutoFulfillmentService db oid).eligible = true ↔
      order.status = "pending" ∧ order.amountCents ≤ 10000 ∧
      ∃ p, orderProduct db order = some p ∧ pyTruthyStr p.supplierUrl = true := by
  simp only [checkAutoFulfillEligibility, h, mkAutoFulfillmentService]
  by_cases hs : order.status = "pending" <;>
  by_cases hv : order.amountCents > (10000 : Int) <;>
  rcases hp : orderProduct db order with _ | p <;>
  simp_all [not_lt]

/-- C1: for an existing order, `check_auto_fulfill_eligibility` is eligible
exactly when the order is pending, at most 10000 cents, and has a product
with a (truthy) supplier_url; a non-pending order is not eligible and the
exact status-reason string is among the reasons. -/
theorem c1_checkEligibility_spec (db : DB) (oid : Nat) (order : Order)
    (h : findOrder db oid = some order) :
    ((checkAutoFulfillEligibility mkAutoFulfillmentService db oid).eligible = true ↔
      order.status = "pending" ∧ order.amountCents ≤ 10000 ∧
      ∃ p, orderProduct db order = some p ∧ pyTruthyStr p.supplierUrl = true) ∧
    (order.status ≠ "pending" →
      (checkAutoFulfillEligibility mkAutoFulfillmentService db oid).eligible = false ∧
      ("Order status is \x27" ++ order.status ++ "\x27, must be \x27pending\x27")
        ∈ (checkAutoFulfillEligibility mkAutoFulfillmentService db oid).reasons) := by
  refine ⟨checkEligibility_eligible_iff db oid order h, fun hs => ?_⟩
  simp only [checkAutoFulfillEligibility, h, mkAutoFulfillmentService]
  refine ⟨?_, ?_⟩ <;> simp [hs]

/-- Closed instance of `c1_checkEligibility_spec` on a paid order. -/
theorem c1_checkEligibility_spec_witness :
    (checkAutoFulfillEligibility mkAutoFulfillmentService exDb 2).eligible = false ∧
    ("Order status is \x27paid\x27, must be \x27pending\x27")
      ∈ (checkAutoFulfillEligibility mkAutoFulfillmentService exDb 2).reasons :=
  (c1_checkEligibility_spec exDb 2 exPaidOrder (by decide)).2 (by decide)

/-- Helper: finding by id after an id-preserving row update. -/
theorem findOrder_update_aux (f : Order → Order) (oid : Nat)
    (hf : ∀ o, (f o).id = o.id) :
    ∀ (l : List Order) (order : Order),
      l.find? (fun o => o.id == oid) = some order →
      (l.map (fun o => if o.id == oid then f o else o)).find? (fun o => o.id == oid)
        = some (f order) := by
  intro l
  induction l with
  | nil => intro order h; simp at h
  | cons o rest ih =>
    intro order h
    by_cases ho : (o.id == oid) = true
    · rw [List.find?_cons_of_pos (p := fun (o : Order) => o.id == oid) _ ho] at h
      injection h with h'
      subst h'
      have hfo : ((f o).id == oid) = true := by rw [hf o]; exact ho
      rw [List.map_cons, if_pos ho, List.find?_cons_of_pos (p := fun (o : Order) => o.id == oid) _ hfo]
    · rw [List.find?_cons_of_neg (p := fun (o : Order) => o.id == oid) _ ho] at h
      rw [List.map_cons, if_neg ho, List.find?_cons_of_neg (p := fun (o : Order) => o.id == oid) _ ho]
      exact ih order h

/-- Helper: `findOrder` after `updateOrderIn` at a found id. -/
theorem findOrder_updateOrderIn_of_found (db : DB) (oid : Nat) (f : Order → Order)
    (hf : ∀ o, (f o).id = o.id) (order : Order) (h : findOrder db oid = some order) :
    findOrder (updateOrderIn db oid f) oid = some (f order) :=
  findOrder_update_aux f oid hf db.orders order h

/-- C2: if the eligibility check passes, `auto_order_from_supplier` succeeds,
stores the synthesized supplier-order id `SUP-<order_id>-<timestamp>` on the
order, and sets the order status to processing. -/
theorem c2_autoOrder_success (db : DB) (ts : String) (oid : Nat) (order : Order)
    (h : findOrder db oid = some order)
    (helig : (checkAutoFulfillEligibility mkAutoFulfillmentService db oid).eligible = true) :
    (autoOrderFromSupplier mkAutoFulfillmentService db ts oid).1.success = true ∧
    (autoOrderFromSupplier mkAutoFulfillmentService db ts oid).1.supplierOrderId
      = some ("SUP-" ++ toString oid ++ "-" ++ ts) ∧
    findOrder (autoOrderFromSupplier mkAutoFulfillmentService db ts oid).2 oid
      = some { order with
          status := "processing",
          supplierOrderId := some ("SUP-" ++ toString oid ++ "-" ++ ts) } := by
  obtain ⟨hs, hv, p, hp, hu⟩ := (checkEligibility_eligible_iff db oid order h).mp helig
  simp only [autoOrderFromSupplier, h, helig, hp, Bool.not_true, Bool.false_eq_true,
    if_false]
  refine ⟨by trivial, by trivial, ?_⟩
  exact findOrder_updateOrderIn_of_found db oid
    (fun o => { o with
      supplierOrderId := some ("SUP-" ++ toString oid ++ "-" ++ ts),
      status := "processing" })
    (fun o => rfl) order h

/-- Closed instance of `c2_autoOrder_success` on a pending eligible order. -/
theorem c2_autoOrder_success_witness :
    (autoOrderFromSupplier mkAutoFulfillmentService exDb "20250101120000" 1).1.success = true ∧
    (autoOrderFromSupplier mkAutoFulfillmentService exDb "20250101120000" 1).1.supplierOrderId
      = some ("SUP-" ++ toString (1 : Nat) ++ "-" ++ "20250101120000") ∧
    findOrder (autoOrderFromSupplier mkAutoFulfillmentService exDb "20250101120000" 1).2 1
      = some { exPendingOrder with
          status := "processing",
          supplierOrderId := some ("SUP-" ++ toString (1 : Nat) ++ "-" ++ "20250101120000") } :=
  c2_autoOrder_success exDb "20250101120000" 1 exPendingOrder (by decide) (by decide)

/-- C3: when the order is missing or the eligibility check fails,
`auto_order_from_supplier` returns success=false with a nonempty message and
leaves the database (hence the order's status and supplier_order_id)
unchanged. -/
theorem c3_autoOrder_failure (db : DB) (ts : String) (oid : Nat)
    (hbad : findOrder db oid = none ∨
      (checkAutoFulfillEligibility mkAutoFulfillmentService db oid).eligible = false) :
    (autoOrderFromSupplier mkAutoFulfillmentService db ts oid).1.success = false ∧
    (autoOrderFromSupplier mkAutoFulfillmentService db ts oid).1.message ≠ "" ∧
    (autoOrderFromSupplier mkAutoFulfillmentService db ts oid).2 = db := by
  rcases hbad with hnone | hineg
  · simp only [autoOrderFromSupplier, hnone]
    exact ⟨by trivial, by decide, by trivial⟩
  · cases hfo : findOrder db oid with
    | none =>
      simp only [autoOrderFromSupplier, hfo]
      exact ⟨by trivial, by decide, by trivial⟩
    | some order =>
      simp only [autoOrderFromSupplier, hfo, hineg, Bool.not_false, if_true]
      refine ⟨by trivial, ?_, by trivial⟩
      intro hcontra
      have hlen := congrArg String.length hcontra
      rw [String.length_append] at hlen
      have h14 : ("Not eligible: ").length = 14 := by decide
      have h0 : ("" : String).length = 0 := by decide
      omega

/-- Closed instance of `c3_autoOrder_failure` at a missing order id. -/
theorem c3_autoOrder_failure_witness :
    (autoOrderFromSupplier mkAutoFulfillmentService exDb "20250101120000" 99).1.success = false ∧
    (autoOrderFromSupplier mkAutoFulfillmentService exDb "20250101120000" 99).1.message ≠ "" ∧
    (autoOrderFromSupplier mkAutoFulfillmentService exDb "20250101120000" 99).2 = exDb :=
  c3_autoOrder_failure exDb "20250101120000" 99 (Or.inl (by decide))

/-- C4 counterexample: "fulfilled" is in the handler allow-list of the
order-status endpoint, yet the schema validator rejects it, so the request
fails with a 422 validation error and leaves the order unchanged. -/
theorem c4_updateOrderStatus_counterexample :
    adminOrderStatuses.contains "fulfilled" = true ∧
    (updateOrderStatusEndpoint exDb 1 "fulfilled").1
      = Resp.err 422 ("Status must be one of: [\x27pending\x27, \x27paid\x27, \x27processing\x27, " ++
          "\x27shipped\x27, \x27delivered\x27, \x27cancelled\x27, \x27refunded\x27]") ∧
    (updateOrderStatusEndpoint exDb 1 "fulfilled").2 = exDb := by
  refine ⟨by decide, by decide, by decide⟩

/-- C4 (amended): for every existing order and every status in the schema
allow-list {pending, paid, processing, shipped, delivered, cancelled,
refunded}, the status-update endpoint succeeds and sets the order's status
to it regardless of the current status; "fulfilled" and "abandoned", though
in the handler's own list, are rejected by request validation. -/
theorem c4_updateOrderStatus_amended (db : DB) (oid : Nat) (order : Order) (s : String)
    (h : findOrder db oid = some order) (hs : s ∈ schemaOrderStatuses) :
    (updateOrderStatusEndpoint db oid s).1 = Resp.ok (s, oid) ∧
    findOrder (updateOrderStatusEndpoint db oid s).2 oid
      = some { order with status := s } := by
  have hlower : pyToLower s = s := by fin_cases hs <;> decide
  have hcontains : schemaOrderStatuses.contains s = true := by fin_cases hs <;> decide
  have hvalid : validateOrderStatusUpdate s = Except.ok s := by
    simp only [validateOrderStatusUpdate, hlower, hcontains, if_true]
  have hmem9 : adminOrderStatuses.contains s = true := by fin_cases hs <;> decide
  simp only [updateOrderStatusEndpoint, hvalid, h, hmem9, Bool.not_true,
    Bool.false_eq_true, if_false]
  refine ⟨by trivial, ?_⟩
  exact findOrder_updateOrderIn_of_found db oid (fun o => { o with status := s })
    (fun o => rfl) order h

/-- Closed instance of `c4_updateOrderStatus_amended`: setting "paid". -/
theorem c4_updateOrderStatus_amended_witness :
    (updateOrderStatusEndpoint exDb 1 "paid").1 = Resp.ok ("paid", 1) ∧
    findOrder (updateOrderStatusEndpoint exDb 1 "paid").2 1
      = some { exPendingOrder with status := "paid" } :=
  c4_updateOrderStatus_amended exDb 1 exPendingOrder "paid" (by decide) (by decide)

/-- Helper: finding a suggestion by id after an id-preserving row update. -/
theorem findSuggestion_update_aux (f : TrendSuggestion → TrendSuggestion) (sid : Nat)
    (hf : ∀ s, (f s).id = s.id) :
    ∀ (l : List TrendSuggestion) (sug : TrendSuggestion),
      l.find? (fun s => s.id == sid) = some sug →
      (l.map (fun s => if s.id == sid then f s else s)).find? (fun s => s.id == sid)
        = some (f sug) := by
  intro l
  induction l with
  | nil => intro sug h; simp at h
  | cons s rest ih =>
    intro sug h
    by_cases hs : (s.id == sid) = true
    · rw [List.find?_cons_of_pos (p := fun (s : TrendSuggestion) => s.id == sid) _ hs] at h
      injection h with h'
      subst h'
      have hfs : ((f s).id == sid) = true := by rw [hf s]; exact hs
      rw [List.map_cons, if_pos hs,
        List.find?_cons_of_pos (p := fun (s : TrendSuggestion) => s.id == sid) _ hfs]
    · rw [List.find?_cons_of_neg (p := fun (s : TrendSuggestion) => s.id == sid) _ hs] at h
      rw [List.map_cons, if_neg hs,
        List.find?_cons_of_neg (p := fun (s : TrendSuggestion) => s.id == sid) _ hs]
      exact ih sug h

/-- C5: approving a pending TrendSuggestion creates exactly one Product
(appended to the product table, slug derived from the hashtag, status
"testing") and updates the suggestion to status "approved" with reviewed_at
set and product_id pointing at the new product; approving an existing
non-pending suggestion fails with a 400 error and changes nothing. -/
theorem c5_approveSuggestion_spec (db : DB) (now : Nat) (sid : Nat)
    (req : Option ApproveRequest) (sug : TrendSuggestion)
    (h : findSuggestion db sid = some sug) :
    (sug.status = "pending" →
      ∃ p : Product,
        (approveSuggestion db now sid req).1 = Resp.ok p ∧
        (approveSuggestion db now sid req).2.products = db.products ++ [p] ∧
        p.status = "testing" ∧
        (p.slug = slugFromHashtag sug.hashtag ∨
          p.slug = slugFromHashtag sug.hashtag ++ "-" ++ toString sug.id) ∧
        findSuggestion (approveSuggestion db now sid req).2 sid
          = some { sug with
              status := "approved", reviewedAt := some now,
              productId := some p.id }) ∧
    (sug.status ≠ "pending" →
      (approveSuggestion db now sid req).1 = Resp.err 400 "Suggestion already processed" ∧
      (approveSuggestion db now sid req).2 = db) := by
  constructor
  · intro hpend
    have hcond : ¬(sug.status ≠ "pending") := by simp [hpend]
    cases hslug : findProductBySlug db (slugFromHashtag sug.hashtag) with
    | none =>
      simp only [approveSuggestion, h, if_neg hcond, hslug]
      refine ⟨_, rfl, rfl, rfl, Or.inl rfl, ?_⟩
      exact findSuggestion_update_aux
        (fun s => { s with
          status := "approved", reviewedAt := some now,
          productId := some (freshProductId db) })
        sid (fun s => rfl) db.suggestions sug h
    | some q =>
      simp only [approveSuggestion, h, if_neg hcond, hslug]
      refine ⟨_, rfl, rfl, rfl, Or.inr rfl, ?_⟩
      exact findSuggestion_update_aux
        (fun s => { s with
          status := "approved", reviewedAt := some now,
          productId := some (freshProductId db) })
        sid (fun s => rfl) db.suggestions sug h
  · intro hnp
    simp only [approveSuggestion, h, if_pos hnp]
    exact ⟨by trivial, by trivial⟩

/-- Closed instance of `c5_approveSuggestion_spec` on a pending suggestion. -/
theorem c5_approveSuggestion_spec_witness :
    (∃ p : Product,
      (approveSuggestion exSuggestionDb 0 5 none).1 = Resp.ok p ∧
      (approveSuggestion exSuggestionDb 0 5 none).2.products = [] ++ [p] ∧
      p.status = "testing" ∧
      (p.slug = slugFromHashtag "#LedLights" ∨
        p.slug = slugFromHashtag "#LedLights" ++ "-" ++ toString (5 : Nat)) ∧
      findSuggestion (approveSuggestion exSuggestionDb 0 5 none).2 5
        = some { exSuggestionLed with
            status := "approved", reviewedAt := some 0,
            productId := some p.id }) ∧
    ((approveSuggestion exSuggestionDb 0 9 none).1
        = Resp.err 400 "Suggestion already processed" ∧
      (approveSuggestion exSuggestionDb 0 9 none).2 = exSuggestionDb) :=
  ⟨(c5_approveSuggestion_spec exSuggestionDb 0 5 none exSuggestionLed (by decide)).1 rfl,
   (c5_approveSuggestion_spec exSuggestionDb 0 9 none exSuggestionDone (by decide)).2
     (by decide)⟩

/-- C6 counterexample: the admin tracking endpoint sets tracking_number on a
pending order without touching its status, so a state with a non-null
tracking_number and status "pending" is reachable (and the tracking number
used passes request validation). -/
theorem c6_tracking_counterexample :
    validateTrackingNumber "TRACK12345" = Except.ok "TRACK12345" ∧
    findOrder (addOrderTracking exDb 1 "TRACK12345" none).2 1
      = some { exPendingOrder with trackingNumber := some "TRACK12345" } ∧
    ({ exPendingOrder with trackingNumber := some "TRACK12345" } : Order).trackingNumber
      ≠ none ∧
    ({ exPendingOrder with trackingNumber := some "TRACK12345" } : Order).status
      = "pending" := by
  refine ⟨rfl, by decide, by decide, by decide⟩

/-- C6 (amended): the fulfillment service's `update_tracking` sets status to
"shipped" whenever it sets tracking_number, but the admin
`POST /orders/(order_id)/tracking` endpoint sets tracking_number while
leaving the order's status unchanged, so an order with a tracking number may
remain in a pre-shipment status. -/
theorem c6_tracking_amended (db : DB) (now : Nat) (oid : Nat) (tn : String)
    (turl : Option String) (order : Order) (h : findOrder db oid = some order) :
    findOrder (serviceUpdateTracking db now oid tn turl).2 oid
      = some { order with
          trackingNumber := some tn,
          trackingUrl := if pyTruthyStr turl then turl else order.trackingUrl,
          status := "shipped", shippedAt := some now } ∧
    findOrder (addOrderTracking db oid tn turl).2 oid
      = some { order with
          trackingNumber := some tn,
          trackingUrl := if pyTruthyStr turl then turl else order.trackingUrl } := by
  constructor
  · simp only [serviceUpdateTracking, h]
    exact findOrder_updateOrderIn_of_found db oid
      (fun o => { o with
        trackingNumber := some tn,
        trackingUrl := if pyTruthyStr turl then turl else o.trackingUrl,
        status := "shipped", shippedAt := some now })
      (fun o => rfl) order h
  · simp only [addOrderTracking, h]
    exact findOrder_updateOrderIn_of_found db oid
      (fun o => { o with
        trackingNumber := some tn,
        trackingUrl := if pyTruthyStr turl then turl else o.trackingUrl })
      (fun o => rfl) order h

/-- Closed instance of `c6_tracking_amended` on a pending order. -/
theorem c6_tracking_amended_witness :
    findOrder (serviceUpdateTracking exDb 7 1 "TRACK12345" none).2 1
      = some { exPendingOrder with
          trackingNumber := some "TRACK12345",
          trackingUrl := if pyTruthyStr none then none else exPendingOrder.trackingUrl,
          status := "shipped", shippedAt := some 7 } ∧
    findOrder (addOrderTracking exDb 1 "TRACK12345" none).2 1
      = some { exPendingOrder with
          trackingNumber := some "TRACK12345",
          trackingUrl := if pyTruthyStr none then none else exPendingOrder.trackingUrl } :=
  c6_tracking_amended exDb 7 1 "TRACK12345" none exPendingOrder (by decide)

/-- Helper: what a successful Python regex match of the slug pattern means:
the core pattern matches the whole string, or everything except one trailing
newline. -/
theorem slugMatches_elim (s : String) (h : slugMatches s = true) :
    slugCore s = true ∨
      (s.data.getLast? = some '\n' ∧ slugCore (String.mk s.data.dropLast) = true) := by
  unfold slugMatches at h
  cases hor : slugCore s with
  | true => exact Or.inl rfl
  | false =>
    rw [hor, Bool.false_or] at h
    right
    cases hl : s.data.getLast? with
    | none => simp [hl] at h
    | some c =>
      simp only [hl, Bool.and_eq_true] at h
      obtain ⟨hc, hcore⟩ := h
      have hc' : c = '\n' := by simpa using hc
      subst hc'
      exact ⟨rfl, hcore⟩

/-- C7 counterexample: the slug invariant fails at a concrete product: the
approval path turns hashtag "#AI" into the unvalidated slug "ai" of length 2;
and schema validation itself accepts "ab\n", a string that is not made of
lowercase-alphanumeric-hyphen characters (Python's `$` admits the trailing
newline). -/
theorem c7_slug_counterexample :
    ((approveSuggestion exSuggestionDb 0 7 none).2.products.map (fun p => p.slug))
      = ["ai"] ∧
    "ai".length = 2 ∧
    validateSlug "ai" = Except.error "Slug must be at least 3 characters" ∧
    validateSlug "ab\n" = Except.ok "ab\n" ∧
    slugCore "ab\n" = false := by
  refine ⟨by decide, by decide, rfl, rfl, by decide⟩

/-- C7 (amended): every slug accepted by schema validation has length 3-100
and matches the slug regex with Python re.match semantics: it is a
lowercase-alphanumeric-hyphen core either exactly or followed by the one
trailing newline that the `$` anchor admits.  The trend-suggestion approval
path derives its slug from the hashtag without validation (and so can
violate the format/length invariant); its collision handling probes the
un-suffixed slug and falls back to `<slug>-<suggestion_id>`, so the new
product's slug is unique among existing products whenever that fallback is
itself unused — uniqueness beyond this is enforced by the unique constraint
on the products.slug column, not by the application code. -/
theorem c7_slug_amended :
    (∀ s t : String, validateSlug s = Except.ok t →
      t = s ∧ slugMatches s = true ∧ 3 ≤ s.length ∧ s.length ≤ 100 ∧
      (slugCore s = true ∨
        (s.data.getLast? = some '\n' ∧ slugCore (String.mk s.data.dropLast) = true))) ∧
    (∀ (db : DB) (now sid : Nat) (req : Option ApproveRequest) (sug : TrendSuggestion),
      findSuggestion db sid = some sug → sug.status = "pending" →
      findProductBySlug db (slugFromHashtag sug.hashtag ++ "-" ++ toString sug.id) = none →
      ∃ p : Product, (approveSuggestion db now sid req).1 = Resp.ok p ∧
        (∀ q ∈ db.products, q.slug ≠ p.slug) ∧
        (approveSuggestion db now sid req).2.products = db.products ++ [p]) := by
  constructor
  · intro s t h
    unfold validateSlug at h
    by_cases h1 : (!slugMatches s) = true
    · rw [if_pos h1] at h
      exact absurd h (by simp)
    · rw [if_neg h1] at h
      by_cases h2 : s.length < 3
      · rw [if_pos h2] at h
        exact absurd h (by simp)
      · rw [if_neg h2] at h
        by_cases h3 : s.length > 100
        · rw [if_pos h3] at h
          exact absurd h (by simp)
        · rw [if_neg h3] at h
          injection h with h'
          have hm : slugMatches s = true := by simpa using h1
          exact ⟨h'.symm, hm, by omega, by omega, slugMatches_elim s hm⟩
  · intro db now sid req sug h hpend hfresh
    have hcond : ¬(sug.status ≠ "pending") := by simp [hpend]
    cases hslug : findProductBySlug db (slugFromHashtag sug.hashtag) with
    | none =>
      simp only [approveSuggestion, h, if_neg hcond, hslug]
      refine ⟨_, rfl, ?_, rfl⟩
      intro q hq
      have hne := List.find?_eq_none.mp (show db.products.find?
        (fun p => p.slug == slugFromHashtag sug.hashtag) = none from hslug) q hq
      show q.slug ≠ slugFromHashtag sug.hashtag
      simpa using hne
    | some q0 =>
      simp only [approveSuggestion, h, if_neg hcond, hslug]
      refine ⟨_, rfl, ?_, rfl⟩
      intro q hq
      have hne := List.find?_eq_none.mp (show db.products.find?
        (fun p => p.slug == slugFromHashtag sug.hashtag ++ "-" ++ toString sug.id) = none
        from hfresh) q hq
      show q.slug ≠ slugFromHashtag sug.hashtag ++ "-" ++ toString sug.id
      simpa using hne

/-- Closed instances of `c7_slug_amended`: a plain slug and a
trailing-newline slug through validation, and a collision-free approval. -/
theorem c7_slug_amended_witness :
    (("led-lights" : String) = "led-lights" ∧ slugMatches "led-lights" = true ∧
      3 ≤ ("led-lights" : String).length ∧ ("led-lights" : String).length ≤ 100 ∧
      (slugCore "led-lights" = true ∨
        ("led-lights".data.getLast? = some '\n' ∧
          slugCore (String.mk "led-lights".data.dropLast) = true))) ∧
    (("ab\n" : String) = "ab\n" ∧ slugMatches "ab\n" = true ∧
      3 ≤ ("ab\n" : String).length ∧ ("ab\n" : String).length ≤ 100 ∧
      (slugCore "ab\n" = true ∨
        ("ab\n".data.getLast? = some '\n' ∧
          slugCore (String.mk "ab\n".data.dropLast) = true))) ∧
    (∃ p : Product, (approveSuggestion exSuggestionDb 0 5 none).1 = Resp.ok p ∧
      (∀ q ∈ ([] : List Product), q.slug ≠ p.slug) ∧
      (approveSuggestion exSuggestionDb 0 5 none).2.products = [] ++ [p]) :=
  ⟨c7_slug_amended.1 "led-lights" "led-lights" rfl,
   c7_slug_amended.1 "ab\n" "ab\n" rfl,
   c7_slug_amended.2 exSuggestionDb 0 5 none exSuggestionLed (by decide) rfl (by decide)⟩

/-- C8: under the default rules, `evaluate_order` on an existing order
recommends "auto_fulfill" when amount_cents < 5000, "hold_for_review" when
amount_cents >= 10000, and the default "process" otherwise; and among two
enabled matching rules of equal priority, the later list position wins
(its action overwrites the earlier one). -/
theorem c8_evaluateOrder_spec (db : DB) (oid : Nat) (order : Order)
    (h : findOrder db oid = some order) :
    (evaluateOrder defaultRules db oid).action?
      = some (if order.amountCents < 5000 then "auto_fulfill"
          else if order.amountCents ≥ 10000 then "hold_for_review" else "process") ∧
    (∀ r1 r2 : Rule, r1.priority = r2.priority → r1.enabled = true → r2.enabled = true →
      r1.condition = "order_value < 5000" → r2.condition = "order_value < 5000" →
      order.amountCents < 5000 →
      (evaluateOrder [r1, r2] db oid).action? = some r2.action) := by
  constructor
  · have hsort : sortRulesByPriority defaultRules = defaultRules := by decide
    simp only [evaluateOrder, h, hsort]
    by_cases h5 : order.amountCents < 5000
    · have h10 : ¬(order.amountCents ≥ 10000) := by omega
      simp [defaultRules, ruleStep, EvalOutcome.action?, h5, h10]
    · by_cases h10 : order.amountCents ≥ 10000
      · simp [defaultRules, ruleStep, EvalOutcome.action?, h5, h10]
      · simp [defaultRules, ruleStep, EvalOutcome.action?, h5, h10]
  · intro r1 r2 hpr he1 he2 hc1 hc2 hamt
    have hsort2 : sortRulesByPriority [r1, r2] = [r1, r2] := by
      unfold sortRulesByPriority
      rw [List.foldl_cons, List.foldl_cons, List.foldl_nil]
      rw [show insertByPriority [] r1 = [r1] from rfl]
      unfold insertByPriority
      rw [if_pos (le_of_eq hpr)]
      rfl
    simp only [evaluateOrder, h, hsort2, List.foldl_cons, List.foldl_nil]
    simp [ruleStep, he1, he2, hc1, hc2, hamt, EvalOutcome.action?]

/-- Closed instance of `c8_evaluateOrder_spec`: a 4999-cent order triggers
auto_fulfill under the default rules, and with two equal-priority matching
rules the later one's action is returned. -/
theorem c8_evaluateOrder_spec_witness :
    (evaluateOrder defaultRules exDb 1).action? = some "auto_fulfill" ∧
    (evaluateOrder
        [ { id := "r1", name := "rule one", condition := "order_value < 5000",
            action := "auto_fulfill", enabled := true, priority := 1 },
          { id := "r2", name := "rule two", condition := "order_value < 5000",
            action := "special", enabled := true, priority := 1 } ] exDb 1).action?
      = some "special" := by
  have h := c8_evaluateOrder_spec exDb 1 exPendingOrder (by decide)
  exact ⟨h.1, h.2 _ _ rfl rfl rfl rfl rfl (by decide)⟩

/-- Closed instance of `c9_recommendPricing_899` at a concrete api-path value. -/
theorem c9_recommendPricing_899_witness :
    (recommendPricing false (heuristicPricing 0 0) 899 (1/2)).suggestedPriceCents = 1499 ∧
    pyTrunc (((899 : Int) : ℚ) * (1 + 1/2)) = 1348 ∧
    ¬ ((1348 : Int) < 1000) ∧ (1348 : Int) < 5000 ∧
    Int.fdiv 1348 500 * 500 + 499 = (1499 : Int) ∧
    ((1499 : Int) % 100 = 99 ∨ (1499 : Int) % 100 = 49) :=
  c9_recommendPricing_899 (heuristicPricing 0 0)
